import Mathlib

/-!
Verification of the Tathmini-AI ledger pipeline
(`backend/netlify/functions/api.py`, endpoint `upload_csv`).

The Python source is shallowly embedded: pandas/numpy amounts are modelled as
exact rationals, machine strings as Lean strings (character lists), and every
fallible step as `Except`.
-/

namespace Tathmini

/-! ### Data model -/

/-- A parsed table as produced by `pd.read_csv`: a header row and data rows.
Cells are strings; a missing cell reads back as the string "nan", as it does
under `astype(str)`. -/
structure RawTable where
  headers : List String
  rows : List (List String)

/-- A row restricted to the three required columns (`df[expected_columns]`),
cells still uncleaned strings. -/
structure RawRow where
  items : String
  debit : String
  credit : String
deriving DecidableEq

/-- A cleaned ledger row: `items` plus numeric `debit`/`credit`
(floats modelled as exact rationals). -/
structure Row where
  items : String
  debit : ℚ
  credit : ℚ
deriving DecidableEq

/-! ### Schema normalizer (api.py lines 53-62) -/

/-- `expected_columns` (line 57). -/
def expectedColumns : List String := ["items", "debit", "credit"]

/-- Python `str.strip()`: drop leading and trailing whitespace. -/
def pyStrip (l : List Char) : List Char :=
  ((l.dropWhile Char.isWhitespace).reverse.dropWhile Char.isWhitespace).reverse

/-- Python `str.strip()` on a string. -/
def strip (s : String) : String := ⟨pyStrip s.data⟩

/-- Python `str.lower()` on a string. -/
def lower (s : String) : String := ⟨s.data.map Char.toLower⟩

/-- Column-label canonicalization: `df.columns.str.lower().str.strip()`
(line 54). -/
def normalizeHeaders (hs : List String) : List String :=
  hs.map fun h => strip (lower h)

/-- `[col for col in expected_columns if col in df.columns]` (line 58). -/
def availableColumns (hs : List String) : List String :=
  expectedColumns.filter fun c => hs.contains c

/-- Cell of a row under a named column (pandas column selection by label). -/
def getCell (hs : List String) (row : List String) (c : String) : String :=
  match hs.findIdx? (fun h => h == c) with
  | some i => row.getD i ""
  | none => ""

/-- Lines 53-62: normalize the headers, require all of `expected_columns`
(HTTP 400 listing the required columns otherwise), then restrict the table to
exactly those three columns, keeping the rows in their original order. -/
def selectColumns (t : RawTable) : Except String (List RawRow) :=
  let hs := normalizeHeaders t.headers
  if (availableColumns hs).length ≠ 3 then
    Except.error ("CSV must have columns: " ++ String.intercalate ", " expectedColumns)
  else
    Except.ok (t.rows.map fun r =>
      { items := getCell hs r "items"
        debit := getCell hs r "debit"
        credit := getCell hs r "credit" })

/-! ### Numeric cleaner (api.py lines 67-79) -/

/-- `.str.replace(",", "")` (line 69): every comma is removed, wherever it
occurs in the cell. -/
def stripCommas (s : String) : String :=
  ⟨s.data.filter fun c => c != ','⟩

/-- Lines 69-70 applied to one cell: remove commas, strip surrounding
whitespace, then map the exact strings "" and "nan" to "0". -/
def cleanCell (s : String) : String :=
  let t := strip (stripCommas s)
  if t = "" then "0" else if t = "nan" then "0" else t

/-- Value of a digit string. -/
def digitsVal (l : List Char) : ℕ :=
  l.foldl (fun a c => 10 * a + (c.toNat - '0'.toNat)) 0

/-- `pd.to_numeric(..., errors="coerce")` on one token (line 72), on the plain
decimal literals that occur in ledger exports: optional sign, digits, optional
fractional part. An unparseable token coerces to NaN, modelled as `none`. -/
def parseAmount (s : String) : Option ℚ :=
  let cs := s.data
  let signed : ℚ × List Char :=
    match cs with
    | '-' :: r => (-1, r)
    | '+' :: r => (1, r)
    | r => (1, r)
  let intPart := signed.2.takeWhile Char.isDigit
  let rest := signed.2.dropWhile Char.isDigit
  match rest with
  | [] => if intPart.isEmpty then none else some (signed.1 * digitsVal intPart)
  | '.' :: frac =>
    if frac.all Char.isDigit && !(intPart.isEmpty && frac.isEmpty) then
      some (signed.1 * ((digitsVal intPart : ℚ) + (digitsVal frac : ℚ) / 10 ^ frac.length))
    else none
  | _ => none

/-- Lines 68-79 for one amount column: parse every cell; if any cell fails
numeric coercion the whole request aborts with HTTP 400
"Invalid numeric values in {col}" (the offending rows go to the server log
only, not into the HTTP error detail). -/
def cleanColumn (col : String) (cells : List String) : Except String (List ℚ) :=
  let parsed := cells.map fun s => parseAmount (cleanCell s)
  if parsed.all Option.isSome then
    Except.ok (parsed.map fun o => o.getD 0)
  else
    Except.error ("Invalid numeric values in " ++ col)

/-- Lines 68-79 for the whole table: clean `debit`, then `credit`; either
column failing aborts the request, so no partially cleaned table is ever
passed downstream. -/
def cleanTable (rows : List RawRow) : Except String (List Row) := do
  let debits ← cleanColumn "debit" (rows.map RawRow.debit)
  let credits ← cleanColumn "credit" (rows.map RawRow.credit)
  Except.ok ((rows.zip (debits.zip credits)).map fun p =>
    { items := p.1.items, debit := p.2.1, credit := p.2.2 })

/-! ### Balance validator (api.py lines 81-89) -/

/-- `df["debit"].sum()` (line 82). -/
def totalDebit (rows : List Row) : ℚ := (rows.map Row.debit).sum

/-- `df["credit"].sum()` (line 83). -/
def totalCredit (rows : List Row) : ℚ := (rows.map Row.credit).sum

/-- Line 84: `abs(total_debit - total_credit) < 0.01`. -/
def isBalanced (rows : List Row) : Bool :=
  decide (|totalDebit rows - totalCredit rows| < 1 / 100)

/-- Python `f"{x:.2f}"`: fixed-point with two decimals (round to nearest; the
binary-float tie behaviour is immaterial at this granularity). -/
def fmt2 (q : ℚ) : String :=
  let n : ℤ := round (q * 100)
  let m := n.natAbs
  (if n < 0 then "-" else "") ++ toString (m / 100) ++ "." ++
    (if m % 100 < 10 then "0" else "") ++ toString (m % 100)

/-- Lines 85-89: the balance status string. -/
def balanceMessage (rows : List Row) : String :=
  if isBalanced rows then
    "Balanced: Total Debit = " ++ fmt2 (totalDebit rows) ++
      ", Total Credit = " ++ fmt2 (totalCredit rows)
  else
    "Unbalanced: Total Debit = " ++ fmt2 (totalDebit rows) ++
      ", Total Credit = " ++ fmt2 (totalCredit rows)

/-! ### Anomaly detector (api.py lines 92-112) -/

/-- sklearn `IsolationForest(...).fit_predict(features)` (lines 94-95). The
learned verdicts are abstracted as `model`; what is fixed is sklearn's input
validation: fitting on an empty feature matrix raises
`ValueError("Found array with 0 sample(s) ...")`, modelled as `Except.error`. -/
def fitPredict (model : List (ℚ × ℚ) → List Int) (features : List (ℚ × ℚ)) :
    Except String (List Int) :=
  if features.isEmpty then Except.error "Found array with 0 sample(s)"
  else Except.ok (model features)

/-- Lines 92-95: build the `(debit, credit)` feature matrix and run the
statistical stage unconditionally, attaching an `anomaly_score` to every
row. -/
def anomalyStage (model : List (ℚ × ℚ) → List Int) (rows : List Row) :
    Except String (List (Row × Int)) :=
  match fitPredict model (rows.map fun r => (r.debit, r.credit)) with
  | Except.error e => Except.error e
  | Except.ok scores => Except.ok (rows.zip scores)

/-- pandas `Series.quantile(0.95)` with the default linear interpolation:
sort ascending, take position `0.95 * (n - 1)` and interpolate between the two
neighbouring order statistics. Empty input gives NaN in pandas; NaN is skipped
by the subsequent `.max()` and loses against 10000 in Python's `max`, so `0`
here produces the same `amount_threshold`. -/
def quantile95 (l : List ℚ) : ℚ :=
  let s := List.insertionSort (· ≤ ·) l
  match s with
  | [] => 0
  | _ :: _ =>
    let pos : ℚ := (19 / 20) * ((s.length : ℚ) - 1)
    let i : ℕ := (⌊pos⌋).toNat
    let a := s.getD i 0
    let b := s.getD (i + 1) a
    a + (pos - (i : ℚ)) * (b - a)

/-- Line 98 as written in the source:
`max(10000, df[["debit", "credit"]].quantile(0.95).max())` — pandas computes
the 95th percentile of each column separately, and `.max()` takes the larger
of the two per-column percentiles. -/
def amountThreshold (rows : List Row) : ℚ :=
  max 10000 (max (quantile95 (rows.map Row.debit)) (quantile95 (rows.map Row.credit)))

/-- Line 99. -/
def imbalanceThreshold : ℚ := 5000

/-- Written from the spec's words, for comparison with `amountThreshold`:
"amount_threshold = max(10000, 95th-percentile of max(debit, credit) across
rows)", i.e. the percentile of the per-row maximum of the two columns. -/
def amountThresholdSpec (rows : List Row) : ℚ :=
  max 10000 (quantile95 (rows.map fun r => max r.debit r.credit))

/-- Lines 100-107: `is_significant_anomaly` for one scored row. -/
def isSignificant (amountThr imbalanceThr : ℚ) (score : Int) (r : Row) : Bool :=
  (score == -1) &&
    (decide (r.debit > amountThr) || decide (r.credit > amountThr) ||
      (decide (r.debit > imbalanceThr) && decide (r.credit = 0)) ||
      (decide (r.credit > imbalanceThr) && decide (r.debit = 0)))

/-- The statistically flagged rows: `anomaly_score == -1`. -/
def statFlagged (scored : List (Row × Int)) : List Row :=
  (scored.filter fun p => p.2 == -1).map Prod.fst

/-- Lines 100-111: the significant-anomaly subset, in row order. -/
def significantAnomalies (amountThr imbalanceThr : ℚ) (scored : List (Row × Int)) :
    List Row :=
  (scored.filter fun p => isSignificant amountThr imbalanceThr p.2 p.1).map Prod.fst

/-! ### Recommendations and response assembly (api.py lines 114-146) -/

/-- Python `str.split(c)` on a character list (`"".split(c) = [""]`). -/
def splitOnChar (c : Char) : List Char → List (List Char)
  | [] => [[]]
  | x :: xs =>
    let r := splitOnChar c xs
    if x = c then [] :: r else (x :: r.headI) :: r.tail

/-- Python `sep.join(parts)` on character lists. -/
def joinSep (sep : List Char) : List (List Char) → List Char
  | [] => []
  | [p] => p
  | p :: ps => p ++ sep ++ joinSep sep ps

/-- Lines 132-136: strip the raw model output; if it does not already start
with "- " (Python `startswith`), prepend "- " and rejoin the lines with
"\n- ", bulleting every line. Output that already starts with "- " is kept
as-is. -/
def formatRecommendations (raw : String) : String :=
  let recs := strip raw
  if "- ".data.isPrefixOf recs.data then recs
  else ⟨"- ".data ++ joinSep "\n- ".data (splitOnChar '\n' recs.data)⟩

/-- Written from the spec's words: a markdown bullet list — every line starts
with "- ". -/
def isBulletList (s : String) : Bool :=
  (splitOnChar '\n' s.data).all fun l => "- ".data.isPrefixOf l

/-- Lines 114-139: the recommendations field. `apiKey` is
`os.getenv("GEMINI_API_KEY")`; `callResult` is the outcome of
`model.generate_content` (`Except.error` when it raises). Neither a missing
key nor a failed call escapes this step. -/
def recommendationsField (apiKey : Option String) (callResult : Except String String) :
    String :=
  match apiKey with
  | none => "Error: GEMINI_API_KEY not set"
  | some _ =>
    match callResult with
    | Except.ok raw => formatRecommendations raw
    | Except.error e => "AI error: " ++ e

/-- Lines 142-146: the response payload. -/
structure Response where
  balance_status : String
  anomalies : List Row
  recommendations : String
deriving DecidableEq

/-- Lines 81-146 after the statistical stage: assemble the response from the
cleaned rows and their anomaly scores. -/
def assembleResponse (rows : List Row) (scores : List Int) (apiKey : Option String)
    (callResult : Except String String) : Response :=
  { balance_status := balanceMessage rows
    anomalies := significantAnomalies (amountThreshold rows) imbalanceThreshold
      (rows.zip scores)
    recommendations := recommendationsField apiKey callResult }

/-! ### Helper lemmas -/

theorem splitOnChar_ne_nil (c : Char) (l : List Char) : splitOnChar c l ≠ [] := by
  cases l with
  | nil => simp [splitOnChar]
  | cons x xs =>
    simp only [splitOnChar]
    split <;> simp

theorem splitOnChar_of_not_mem {c : Char} :
    ∀ {l : List Char}, c ∉ l → splitOnChar c l = [l]
  | [], _ => rfl
  | x :: xs, h => by
    have hx : ¬ x = c := fun hh => h (hh ▸ List.mem_cons_self x xs)
    have hxs : c ∉ xs := fun hh => h (List.mem_cons_of_mem _ hh)
    simp [splitOnChar, hx, splitOnChar_of_not_mem hxs]

theorem splitOnChar_append {c : Char} :
    ∀ {l : List Char} (r : List Char), c ∉ l →
      splitOnChar c (l ++ c :: r) = l :: splitOnChar c r
  | [], r, _ => by simp [splitOnChar]
  | x :: xs, r, h => by
    have hx : ¬ x = c := fun hh => h (hh ▸ List.mem_cons_self x xs)
    have hxs : c ∉ xs := fun hh => h (List.mem_cons_of_mem _ hh)
    simp [splitOnChar, hx, splitOnChar_append r hxs]

theorem not_mem_of_mem_splitOnChar {c : Char} :
    ∀ {l : List Char} {p : List Char}, p ∈ splitOnChar c l → c ∉ p
  | [], p, hp => by
    simp [splitOnChar] at hp
    simp [hp]
  | x :: xs, p, hp => by
    simp only [splitOnChar] at hp
    by_cases hx : x = c
    · rw [if_pos hx] at hp
      rcases List.mem_cons.mp hp with h | h
      · simp [h]
      · exact not_mem_of_mem_splitOnChar h
    · rw [if_neg hx] at hp
      rcases List.mem_cons.mp hp with h | h
      · subst h
        intro hmem
        rcases List.mem_cons.mp hmem with h' | h'
        · exact hx h'.symm
        · have hne := splitOnChar_ne_nil c xs
          have : (splitOnChar c xs).headI ∈ splitOnChar c xs := by
            cases hh : splitOnChar c xs with
            | nil => exact absurd hh hne
            | cons a t => simp
          exact not_mem_of_mem_splitOnChar this h'
      · have : p ∈ splitOnChar c xs := List.mem_of_mem_tail h
        exact not_mem_of_mem_splitOnChar this

theorem splitOnChar_joinSep (c : Char) (pre : List Char) (hpre : c ∉ pre) :
    ∀ ps : List (List Char), ps ≠ [] → (∀ p ∈ ps, c ∉ p) →
      splitOnChar c (pre ++ joinSep (c :: pre) ps) = ps.map (fun p => pre ++ p)
  | [], h, _ => absurd rfl h
  | [p], _, hp => by
    have hq : c ∉ pre ++ p := by
      intro hmem
      rcases List.mem_append.mp hmem with h | h
      · exact hpre h
      · exact hp p (by simp) h
    simp [joinSep, splitOnChar_of_not_mem hq]
  | p :: q :: t, _, hp => by
    have h1 : c ∉ pre ++ p := by
      intro hmem
      rcases List.mem_append.mp hmem with h | h
      · exact hpre h
      · exact hp p (by simp) h
    have hrest : ∀ x ∈ q :: t, c ∉ x := fun x hx => hp x (List.mem_cons_of_mem _ hx)
    have hshape : pre ++ joinSep (c :: pre) (p :: q :: t) =
        (pre ++ p) ++ c :: (pre ++ joinSep (c :: pre) (q :: t)) := by
      simp [joinSep, List.append_assoc]
    rw [hshape, splitOnChar_append _ h1,
      splitOnChar_joinSep c pre hpre (q :: t) (by simp) hrest]
    simp

theorem isPrefixOf_true_iff {l m : List Char} : l.isPrefixOf m = true ↔ l <+: m := by
  simp [ List.isPrefixOf_iff_prefix]

theorem stripCommas_contains_false (s : String) :
    ((stripCommas s).data.contains ',') = false := by
  rw [Bool.eq_false_iff]
  intro hc
  have hmem : ',' ∈ (stripCommas s).data := by simpa using hc
  obtain ⟨-, hpred⟩ := List.mem_filter.mp hmem
  simp at hpred

theorem isSignificant_iff (amountThr imbalanceThr : ℚ) (score : Int) (r : Row) :
    isSignificant amountThr imbalanceThr score r = true ↔
      score = -1 ∧ (amountThr < r.debit ∨ amountThr < r.credit ∨
        (imbalanceThr < r.debit ∧ r.credit = 0) ∨
        (imbalanceThr < r.credit ∧ r.debit = 0)) := by
  simp [isSignificant, Bool.and_eq_true, Bool.or_eq_true, decide_eq_true_eq,
    beq_iff_eq, gt_iff_lt, or_assoc]

theorem availableColumns_length_three (hs : List String) :
    (availableColumns hs).length = 3 ↔
      ("items" ∈ hs ∧ "debit" ∈ hs ∧ "credit" ∈ hs) := by
  by_cases h1 : "items" ∈ hs <;> by_cases h2 : "debit" ∈ hs <;>
    by_cases h3 : "credit" ∈ hs <;>
      simp [availableColumns, expectedColumns, h1, h2, h3]

/-! ### Claim theorems -/

/-- C1 counterexample: on the two-row table with debits `[0, 20000]` and
credits `[20000, 0]`, the source computes
`max(10000, max(p95(debit), p95(credit))) = 19000`, while the claimed formula
`max(10000, p95 of the per-row max(debit, credit))` gives `20000`: the
percentile is per column, not of the per-row maximum. -/
theorem amountThreshold_not_rowwise_max :
    amountThreshold [⟨"a", 0, 20000⟩, ⟨"b", 20000, 0⟩] = 19000 ∧
    amountThresholdSpec [⟨"a", 0, 20000⟩, ⟨"b", 20000, 0⟩] = 20000 ∧
    amountThreshold [⟨"a", 0, 20000⟩, ⟨"b", 20000, 0⟩] ≠
      amountThresholdSpec [⟨"a", 0, 20000⟩, ⟨"b", 20000, 0⟩] := by
  refine ⟨?_, ?_, ?_⟩ <;>
    norm_num +decide [amountThreshold, amountThresholdSpec, quantile95]

/-- C1 (amended): for every cleaned ledger table, the rule-stage
`amount_threshold` equals `max(10000, max of the two per-column 95th
percentiles of debit and credit)`, and consequently it is always at least
10000. -/
theorem amountThreshold_eq_and_floor (rows : List Row) :
    amountThreshold rows =
      max 10000 (max (quantile95 (rows.map Row.debit))
        (quantile95 (rows.map Row.credit))) ∧
    (10000 : ℚ) ≤ amountThreshold rows :=
  ⟨rfl, le_max_left _ _⟩

/-- C2: on a cleaned table with zero rows the code does not short-circuit:
it still invokes the statistical stage, whose fit on an empty feature matrix
raises (surfacing as a server error), even though the balance stage would
have reported balanced totals of zero. This contradicts the claimed
short-circuit-and-return behaviour. -/
theorem anomalyStage_faults_on_empty (model : List (ℚ × ℚ) → List Int) :
    anomalyStage model [] = Except.error "Found array with 0 sample(s)" ∧
    balanceMessage [] = "Balanced: Total Debit = 0.00, Total Credit = 0.00" := by
  constructor
  · rfl
  · norm_num +decide [balanceMessage, isBalanced, totalDebit, totalCredit, fmt2]

/-- C3: a row is significant iff its statistical flag (`anomaly_score == -1`)
is set and at least one rule condition holds; hence the significant set is a
subset of the statistically flagged rows, and raising `amount_threshold`
never increases the significant-anomaly count. -/
theorem significant_subset_and_monotone (amountThr amountThr' imbalanceThr : ℚ)
    (scored : List (Row × Int)) :
    (∀ (score : Int) (r : Row),
      isSignificant amountThr imbalanceThr score r = true ↔
        score = -1 ∧ (amountThr < r.debit ∨ amountThr < r.credit ∨
          (imbalanceThr < r.debit ∧ r.credit = 0) ∨
          (imbalanceThr < r.credit ∧ r.debit = 0))) ∧
    (∀ r ∈ significantAnomalies amountThr imbalanceThr scored,
      r ∈ statFlagged scored) ∧
    (amountThr ≤ amountThr' →
      (significantAnomalies amountThr' imbalanceThr scored).length ≤
        (significantAnomalies amountThr imbalanceThr scored).length) := by
  refine ⟨isSignificant_iff amountThr imbalanceThr, ?_, ?_⟩
  · intro r hr
    simp only [significantAnomalies, List.mem_map] at hr
    obtain ⟨p, hp, rfl⟩ := hr
    rw [List.mem_filter] at hp
    obtain ⟨hmem, hsig⟩ := hp
    have hflag : p.2 = -1 := ((isSignificant_iff _ _ _ _).mp hsig).1
    simp only [statFlagged, List.mem_map]
    exact ⟨p, List.mem_filter.mpr ⟨hmem, by simp [hflag]⟩, rfl⟩
  · intro h
    have mono : ∀ p : Row × Int,
        isSignificant amountThr' imbalanceThr p.2 p.1 = true →
          isSignificant amountThr imbalanceThr p.2 p.1 = true := by
      intro p hp
      rw [isSignificant_iff] at hp ⊢
      obtain ⟨hflag, hrule⟩ := hp
      refine ⟨hflag, ?_⟩
      rcases hrule with h1 | h1 | h1 | h1
      · exact Or.inl (lt_of_le_of_lt h h1)
      · exact Or.inr (Or.inl (lt_of_le_of_lt h h1))
      · exact Or.inr (Or.inr (Or.inl h1))
      · exact Or.inr (Or.inr (Or.inr h1))
    simp only [significantAnomalies, List.length_map]
    exact (List.monotone_filter_right scored mono).length_le

/-- C3 witness: with thresholds `10000 ≤ 30000` on a concrete scored table,
the significant-anomaly count at the higher threshold does not exceed the
count at the lower one. -/
theorem significant_subset_and_monotone_witness :
    (significantAnomalies 30000 5000
        [(⟨"Land purchase", 15000, 0⟩, -1), (⟨"Rent", 20000, 20000⟩, 1)]).length ≤
      (significantAnomalies 10000 5000
        [(⟨"Land purchase", 15000, 0⟩, -1), (⟨"Rent", 20000, 20000⟩, 1)]).length :=
  (significant_subset_and_monotone 10000 30000 5000
    [(⟨"Land purchase", 15000, 0⟩, -1), (⟨"Rent", 20000, 20000⟩, 1)]).2.2
    (by norm_num)

/-- C4: `is_balanced` holds iff `|Σdebit − Σcredit| < 0.01`; a difference of
exactly 0.01 is unbalanced (strict inequality); and the status string is the
balanced/unbalanced verdict followed by both totals rendered to two decimal
places. -/
theorem balance_check_spec (rows : List Row) :
    (isBalanced rows = true ↔
      |totalDebit rows - totalCredit rows| < 1 / 100) ∧
    (|totalDebit rows - totalCredit rows| = 1 / 100 → isBalanced rows = false) ∧
    balanceMessage rows =
      (if isBalanced rows then "Balanced" else "Unbalanced") ++
        ": Total Debit = " ++ fmt2 (totalDebit rows) ++
        ", Total Credit = " ++ fmt2 (totalCredit rows) := by
  refine ⟨by simp [isBalanced], ?_, ?_⟩
  · intro h
    simp only [isBalanced, decide_eq_false_iff_not]
    rw [h]
    exact lt_irrefl _
  · have e1 : ("Balanced" : String) ++ ": Total Debit = " =
        "Balanced: Total Debit = " := by decide
    have e2 : ("Unbalanced" : String) ++ ": Total Debit = " =
        "Unbalanced: Total Debit = " := by decide
    cases hb : isBalanced rows <;>
      simp [balanceMessage, hb, ← e1, ← e2, String.append_assoc]

/-- C4 witness: a one-row table whose debit/credit difference is exactly 0.01
is reported unbalanced. -/
theorem balance_check_spec_witness :
    isBalanced [⟨"x", 1 / 100, 0⟩] = false :=
  (balance_check_spec [⟨"x", 1 / 100, 0⟩]).2.1
    (by norm_num [totalDebit, totalCredit])

/-- C5 counterexample: two tables whose offending rows differ (row 1 with
value "abc" versus row 0 with value "xyz") produce the identical client error
"Invalid numeric values in debit"; the message contains neither offending
token, so the client error names the column but not the offending row. -/
theorem numeric_error_does_not_name_row :
    cleanColumn "debit" ["100", "abc"] =
      Except.error "Invalid numeric values in debit" ∧
    cleanColumn "debit" ["xyz", "200", "300"] =
      Except.error "Invalid numeric values in debit" ∧
    ¬ "abc".data <:+: "Invalid numeric values in debit".data ∧
    ¬ "xyz".data <:+: "Invalid numeric values in debit".data := by
  refine ⟨?_, ?_, by decide, by decide⟩ <;>
    norm_num +decide [cleanColumn, cleanCell, stripCommas, strip, pyStrip,
      parseAmount, digitsVal]

/-- C5 (amended): for every debit or credit cell, after comma-stripping and
whitespace-stripping, the empty string and the literal "nan" token map to
zero; any other non-numeric token aborts the request with a client error that
names the offending column (the offending rows are only logged server-side,
not included in the client error). -/
theorem numeric_cleaning_error_policy (col : String) (cells : List String)
    (h : ∃ c ∈ cells, parseAmount (cleanCell c) = none) :
    cleanColumn col cells = Except.error ("Invalid numeric values in " ++ col) ∧
    col.data <:+ ("Invalid numeric values in " ++ col).data ∧
    parseAmount (cleanCell "") = some 0 ∧
    parseAmount (cleanCell " nan ") = some 0 := by
  refine ⟨?_, ?_, ?_, ?_⟩
  · have hall : (cells.map fun s => parseAmount (cleanCell s)).all
        Option.isSome = false := by
      rw [Bool.eq_false_iff]
      intro hall
      rw [List.all_eq_true] at hall
      obtain ⟨c, hc, hnone⟩ := h
      have := hall _ (List.mem_map_of_mem _ hc)
      rw [hnone] at this
      exact Bool.noConfusion this
    simp [cleanColumn, hall]
  · rw [String.data_append]
    exact List.suffix_append _ _
  · norm_num +decide [cleanCell, stripCommas, strip, pyStrip, parseAmount, digitsVal]
  · norm_num +decide [cleanCell, stripCommas, strip, pyStrip, parseAmount, digitsVal]

/-- C5 witness: the column `credit` containing the unparseable token "oops"
aborts with the client error naming `credit`. -/
theorem numeric_cleaning_error_policy_witness :
    cleanColumn "credit" ["1.5", "oops"] =
      Except.error ("Invalid numeric values in " ++ "credit") :=
  (numeric_cleaning_error_policy "credit" ["1.5", "oops"]
    ⟨"oops", by simp, by norm_num +decide [cleanCell, stripCommas, strip,
      pyStrip, parseAmount, digitsVal]⟩).1

/-- C6: after lowercasing and whitespace-trimming the column labels, if any
of `items`, `debit`, `credit` is missing the pipeline fails with the schema
error listing the required columns (hence naming every missing one);
otherwise it keeps exactly those three columns, rows in original order. -/
theorem schema_validation (t : RawTable) :
    (¬ ("items" ∈ normalizeHeaders t.headers ∧
        "debit" ∈ normalizeHeaders t.headers ∧
        "credit" ∈ normalizeHeaders t.headers) →
      selectColumns t = Except.error "CSV must have columns: items, debit, credit") ∧
    (("items" ∈ normalizeHeaders t.headers ∧
        "debit" ∈ normalizeHeaders t.headers ∧
        "credit" ∈ normalizeHeaders t.headers) →
      selectColumns t = Except.ok (t.rows.map fun r =>
        { items := getCell (normalizeHeaders t.headers) r "items"
          debit := getCell (normalizeHeaders t.headers) r "debit"
          credit := getCell (normalizeHeaders t.headers) r "credit" })) ∧
    (∀ c ∈ expectedColumns,
      c.data <:+: "CSV must have columns: items, debit, credit".data) := by
  have emsg : ("CSV must have columns: " ++
      String.intercalate ", " expectedColumns) =
      "CSV must have columns: items, debit, credit" := by decide
  refine ⟨?_, ?_, by decide⟩
  · intro h
    have hne : (availableColumns (normalizeHeaders t.headers)).length ≠ 3 :=
      fun hh => h ((availableColumns_length_three _).mp hh)
    simp only [selectColumns]
    rw [if_pos hne, emsg]
  · intro h
    have h3 : (availableColumns (normalizeHeaders t.headers)).length = 3 :=
      (availableColumns_length_three _).mpr h
    simp only [selectColumns]
    rw [if_neg (by simp [h3])]

/-- C6 witness: a table missing the `credit` column fails with the error
listing all required columns; a table with all three (in mixed case, with an
extra column) is restricted to exactly `items`, `debit`, `credit`. -/
theorem schema_validation_witness :
    selectColumns ⟨["Items ", " DEBIT"], [["Rent", "100"]]⟩ =
      Except.error "CSV must have columns: items, debit, credit" ∧
    selectColumns ⟨["Items", "Debit", "Credit", "Extra"], [["Rent", "1", "2", "x"]]⟩ =
      Except.ok [⟨"Rent", "1", "2"⟩] := by
  constructor
  · exact (schema_validation ⟨["Items ", " DEBIT"], [["Rent", "100"]]⟩).1
      (by decide)
  · refine ((schema_validation
      ⟨["Items", "Debit", "Credit", "Extra"], [["Rent", "1", "2", "x"]]⟩).2.1
        (by decide)).trans ?_
    norm_num +decide [normalizeHeaders, strip, pyStrip, lower, getCell]

/-- C7 counterexample: the cell "-500" passes numeric cleaning and yields a
cleaned row with a negative debit; the code never enforces non-negativity. -/
theorem cleaning_accepts_negative :
    cleanColumn "debit" ["-500"] = Except.ok [-500] ∧ ((-500 : ℚ) < 0) := by
  constructor
  · norm_num +decide [cleanColumn, cleanCell, stripCommas, strip, pyStrip,
      parseAmount, digitsVal]
    simp
    norm_num
  · norm_num

/-- C7 (amended): a value that fails numeric coercion invalidates the whole
request, so a successfully cleaned column covers every input cell (no partial
tables); however, cleaned debit/credit values are not guaranteed
non-negative. -/
theorem cleaning_all_or_nothing (col : String) (cells : List String)
    (l : List ℚ) (h : cleanColumn col cells = Except.ok l) :
    l.length = cells.length ∧
    ∀ c ∈ cells, (parseAmount (cleanCell c)).isSome = true := by
  simp only [cleanColumn] at h
  split at h
  case isTrue hcond =>
    rw [Except.ok.injEq] at h
    subst h
    constructor
    · simp
    · rw [List.all_eq_true] at hcond
      intro c hc
      exact hcond _ (List.mem_map_of_mem _ hc)
  case isFalse hcond =>
    exact absurd h (by simp)

/-- C7 witness: a concretely cleaned column covers both of its input cells. -/
theorem cleaning_all_or_nothing_witness :
    ([(5 : ℚ), 123] : List ℚ).length = (["5", "1,2,3"] : List String).length :=
  (cleaning_all_or_nothing "credit" ["5", "1,2,3"] [5, 123]
    (by
      norm_num +decide [cleanColumn, cleanCell, stripCommas, strip, pyStrip,
        parseAmount, digitsVal]
      simp
      norm_num)).1

/-- C8: neither a missing recommendation-service credential nor a failed
recommendation call aborts the pipeline: the response still carries the
computed balance status and significant-anomaly list (independent of the
recommendation outcome), and only the recommendations field carries the
marked error string. -/
theorem degraded_recommendations (rows : List Row) (scores : List Int)
    (key e : String) (apiKey apiKey2 : Option String)
    (callResult callResult2 : Except String String) :
    (assembleResponse rows scores none callResult).recommendations =
      "Error: GEMINI_API_KEY not set" ∧
    (assembleResponse rows scores (some key) (Except.error e)).recommendations =
      "AI error: " ++ e ∧
    (assembleResponse rows scores apiKey callResult).balance_status =
      balanceMessage rows ∧
    (assembleResponse rows scores apiKey callResult).anomalies =
      significantAnomalies (amountThreshold rows) imbalanceThreshold
        (rows.zip scores) ∧
    (assembleResponse rows scores apiKey callResult).balance_status =
      (assembleResponse rows scores apiKey2 callResult2).balance_status ∧
    (assembleResponse rows scores apiKey callResult).anomalies =
      (assembleResponse rows scores apiKey2 callResult2).anomalies :=
  ⟨rfl, rfl, rfl, rfl, rfl, rfl⟩

/-- C9 counterexample: raw service output that already starts with "- " is
passed through unchanged even when its later lines are not bullets, so the
recommendations text is not always a markdown bullet list. -/
theorem bullet_passthrough_cex :
    formatRecommendations "- Verify land docs\nCheck rates" =
      "- Verify land docs\nCheck rates" ∧
    isBulletList (formatRecommendations "- Verify land docs\nCheck rates") =
      false := by
  refine ⟨?_, ?_⟩ <;>
    norm_num +decide [formatRecommendations, isBulletList, strip, pyStrip,
      splitOnChar, joinSep]

/-- C9 (amended): the recommendations text always begins with the markdown
bullet "- "; when the stripped raw text does not already begin with "- ",
every line is prefixed with "- " so the whole text is a markdown bullet
list; raw text already beginning with "- " is returned as-is, and its later
lines may remain unbulleted. -/
theorem bullet_formatting (raw : String) :
    "- ".data <+: (formatRecommendations raw).data ∧
    ("- ".data.isPrefixOf (strip raw).data = false →
      isBulletList (formatRecommendations raw) = true) := by
  constructor
  · by_cases hp : "- ".data.isPrefixOf (strip raw).data
    · have hform : formatRecommendations raw = strip raw := by
        simp [formatRecommendations, hp]
      rw [hform]
      exact isPrefixOf_true_iff.mp hp
    · have hform : formatRecommendations raw =
          ⟨"- ".data ++ joinSep "\n- ".data (splitOnChar '\n' (strip raw).data)⟩ := by
        simp [formatRecommendations, hp]
      rw [hform]
      exact List.prefix_append _ _
  · intro hp
    have hform : formatRecommendations raw =
        ⟨"- ".data ++ joinSep "\n- ".data (splitOnChar '\n' (strip raw).data)⟩ := by
      simp [formatRecommendations, hp]
    rw [hform, isBulletList]
    have hdata : (String.mk ("- ".data ++
        joinSep "\n- ".data (splitOnChar '\n' (strip raw).data))).data =
        "- ".data ++ joinSep ('\n' :: "- ".data) (splitOnChar '\n' (strip raw).data) :=
      rfl
    rw [hdata, splitOnChar_joinSep '\n' "- ".data (by decide) _
      (splitOnChar_ne_nil _ _) (fun p hp' => not_mem_of_mem_splitOnChar hp')]
    rw [List.all_eq_true]
    intro x hx
    rw [List.mem_map] at hx
    obtain ⟨p, hpmem, rfl⟩ := hx
    exact isPrefixOf_true_iff.mpr (List.prefix_append _ _)

/-- C9 witness: raw output with no bullets at all is reformatted into a full
markdown bullet list. -/
theorem bullet_formatting_witness :
    isBulletList
      (formatRecommendations "Check supporting documents\nReview approvals") =
      true :=
  (bullet_formatting "Check supporting documents\nReview approvals").2
    (by decide)

/-- C10: numeric cleaning deletes every comma wherever it occurs in a cell
before parsing, so a token like "1,2,3" (commas not positioned as thousands
separators) becomes "123" and is accepted as the amount 123. -/
theorem comma_stripping_everywhere :
    (∀ s : String, ((stripCommas s).data.contains ',') = false) ∧
    parseAmount (cleanCell "1,2,3") = some 123 ∧
    cleanColumn "debit" ["1,2,3"] = Except.ok [123] := by
  refine ⟨stripCommas_contains_false, ?_, ?_⟩ <;>
    (norm_num +decide [cleanColumn, cleanCell, stripCommas, strip, pyStrip,
      parseAmount, digitsVal]
     simp
     norm_num)

end Tathmini
